import Mathlib

/-!
Verification development for the MEXC market-data client and poller
(src/src/bot/mexc_client.py).

The embedding is shallow:
- JSON numbers and numeric strings are modelled as rationals; the
  remote response array becomes a value of type List Rat.
- Python int() applied to such a value truncates toward zero (pyInt).
- The stateful request loop (MexcClient._make_request) becomes a
  structurally recursive function over a script of per-attempt HTTP
  outcomes, returning the final result together with the trace of
  attempts and sleeps it performs.
- The polling loop (KlinePoller._poll_loop) becomes a step function
  over the poller state (the high-water mark) driven by per-cycle
  inputs (fetch outcome, whether the consumer callback raises,
  whether a cancellation arrives), returning the new state, the trace
  of observable events of the cycle, and whether the loop continues.
-/

/-- Python int() on a rational-valued JSON field: truncation toward zero.
On integer-valued inputs (the only ones the API sends for time and
trade-count fields) this is the identity on the integer value. -/
def pyInt (q : ℚ) : Int := q.num.tdiv q.den

/-- Candle record, mirroring the dataclass KlineData field for field.
The Python field named open is rendered open_ because open is a Lean
keyword; prices and volumes are rationals, times and trade counts are
integers, exactly as int()/float() produce them in from_api_response. -/
structure KlineData where
  open_time : Int
  open_ : ℚ
  high : ℚ
  low : ℚ
  close : ℚ
  volume : ℚ
  close_time : Int
  quote_volume : ℚ
  trades : Int
  taker_buy_base_volume : ℚ
  taker_buy_quote_volume : ℚ
deriving DecidableEq

/-- Embedding of KlineData.from_api_response.  The Python code indexes
data[0] .. data[7] unconditionally (an IndexError on a shorter array is
modelled by the none branch) and guards the trailing fields with
len(data) > 8, > 9, > 10 respectively, defaulting them to 0.  Under the
length guard, getD i 0 is exactly the element data[i]. -/
def KlineData.from_api_response (data : List ℚ) : Option KlineData :=
  if 8 ≤ data.length then
    some {
      open_time := pyInt (data.getD 0 0)
      open_ := data.getD 1 0
      high := data.getD 2 0
      low := data.getD 3 0
      close := data.getD 4 0
      volume := data.getD 5 0
      close_time := pyInt (data.getD 6 0)
      quote_volume := data.getD 7 0
      trades := if 8 < data.length then pyInt (data.getD 8 0) else 0
      taker_buy_base_volume := if 9 < data.length then data.getD 9 0 else 0
      taker_buy_quote_volume := if 10 < data.length then data.getD 10 0 else 0 }
  else none

/-- Literal positional array from the spec's decode-correctness test:
[1609459200000,"29000.00","29500.00","28800.00","29200.00","150.5",
 1609462800000,"4380000.00",1250,"75.25","2190000.00","0"]. -/
def specLiteralArray : List ℚ :=
  [1609459200000, 29000, 29500, 28800, 29200, 301/2,
   1609462800000, 4380000, 1250, 301/4, 2190000, 0]

/-- Candle that decoding specLiteralArray produces. -/
def specLiteralCandle : KlineData :=
  { open_time := 1609459200000
    open_ := 29000
    high := 29500
    low := 28800
    close := 29200
    volume := 301/2
    close_time := 1609462800000
    quote_volume := 4380000
    trades := 1250
    taker_buy_base_volume := 301/4
    taker_buy_quote_volume := 2190000 }

/-- Length-9 input array: the first eight mandatory fields followed by a
nonzero trade count at index 8. -/
def lenNineArray : List ℚ := [0, 1, 1, 0, 1, 1, 1, 1, 7]

/-- Input array whose element 0 (open time) exceeds its element 6
(close time). -/
def reversedTimesArray : List ℚ := [5, 1, 1, 1, 1, 1, 3, 1]

/-- Candle decoded from reversedTimesArray. -/
def reversedTimesCandle : KlineData :=
  { open_time := 5, open_ := 1, high := 1, low := 1, close := 1
    volume := 1, close_time := 3, quote_volume := 1, trades := 0
    taker_buy_base_volume := 0, taker_buy_quote_volume := 0 }

/-- Helper: decoding the literal spec array yields the expected candle. -/
theorem decode_specLiteralArray :
    KlineData.from_api_response specLiteralArray = some specLiteralCandle := by
  simp [KlineData.from_api_response, specLiteralArray, specLiteralCandle, List.getD,
    KlineData.mk.injEq, pyInt, Rat.num_ofNat, Rat.den_ofNat, Int.tdiv_one]

/-- Helper: decoding the reversed-times array yields the expected candle. -/
theorem decode_reversedTimesArray :
    KlineData.from_api_response reversedTimesArray = some reversedTimesCandle := by
  simp [KlineData.from_api_response, reversedTimesArray, reversedTimesCandle, List.getD,
    KlineData.mk.injEq, pyInt, Rat.num_ofNat, Rat.den_ofNat, Int.tdiv_one]

/-- Claim C3, counterexample to the claim as stated: the length-9 array is
shorter than 12 elements and at least 8 long, yet its decoded trade count
is 7, not the claimed default 0 (the decoder reads index 8 whenever the
array reaches it). -/
theorem claim_C3_counterexample :
    8 ≤ lenNineArray.length ∧ lenNineArray.length < 12 ∧
    (KlineData.from_api_response lenNineArray).map KlineData.trades = some 7 ∧
    (7 : Int) ≠ 0 := by
  refine ⟨by decide, by decide, ?_, by decide⟩
  simp [KlineData.from_api_response, lenNineArray, List.getD,
    pyInt, Rat.num_ofNat, Rat.den_ofNat, Int.tdiv_one]

/-- Claim C3 as amended: decoding the literal positional array produces the
candle with open 29000, high 29500, low 28800, close 29200, volume 150.5
and trade count 1250; and for every input of length at least 8, each
trailing field defaults to 0 exactly when the array is too short to
contain its index (trade count for length at most 8, taker buy base
volume for length at most 9, taker buy quote volume for length at most
10), and is otherwise read from the array. -/
theorem claim_C3_decode_and_defaults :
    (KlineData.from_api_response specLiteralArray = some specLiteralCandle ∧
      specLiteralCandle.open_ = 29000 ∧ specLiteralCandle.high = 29500 ∧
      specLiteralCandle.low = 28800 ∧ specLiteralCandle.close = 29200 ∧
      specLiteralCandle.volume = 301/2 ∧ specLiteralCandle.trades = 1250) ∧
    ∀ data : List ℚ, 8 ≤ data.length →
      (KlineData.from_api_response data).map KlineData.trades =
        some (if 8 < data.length then pyInt (data.getD 8 0) else 0) ∧
      (KlineData.from_api_response data).map KlineData.taker_buy_base_volume =
        some (if 9 < data.length then data.getD 9 0 else 0) ∧
      (KlineData.from_api_response data).map KlineData.taker_buy_quote_volume =
        some (if 10 < data.length then data.getD 10 0 else 0) := by
  refine ⟨⟨decode_specLiteralArray, rfl, rfl, rfl, rfl, rfl, rfl⟩, ?_⟩
  intro data h
  simp [KlineData.from_api_response, h]

/-- Claim C3 witness: a concrete length-8 array decodes with all three
trailing fields defaulted to 0. -/
theorem claim_C3_decode_and_defaults_witness :
    (KlineData.from_api_response [0, 1, 1, 0, 1, 1, 1, 1]).map KlineData.trades
      = some 0 := by
  have h := (claim_C3_decode_and_defaults.2 [0, 1, 1, 0, 1, 1, 1, 1] (by decide)).1
  simpa using h

/-- Claim C4, counterexample to the claim as stated: the decoder performs no
validation, so an input array whose element 0 exceeds its element 6
decodes to a candle with open_time = 5 and close_time = 3, violating
open_time < close_time. -/
theorem claim_C4_counterexample :
    KlineData.from_api_response reversedTimesArray = some reversedTimesCandle ∧
    ¬ reversedTimesCandle.open_time < reversedTimesCandle.close_time :=
  ⟨decode_reversedTimesArray, by decide⟩

/-- Claim C4 as amended: the decoder copies the two time fields verbatim
from indices 0 and 6 of the input array, so a decoded candle satisfies
open_time < close_time exactly when the input array does; the invariant
is an assumption on server data, not enforced by the decoder. -/
theorem claim_C4_open_lt_close_iff :
    ∀ (data : List ℚ) (c : KlineData), KlineData.from_api_response data = some c →
      (c.open_time < c.close_time ↔ pyInt (data.getD 0 0) < pyInt (data.getD 6 0)) := by
  intro data c h
  simp only [KlineData.from_api_response] at h
  split at h
  · rw [Option.some_inj] at h
    subst h
    rfl
  · exact absurd h (by simp)

/-- Claim C4 witness: the literal spec array satisfies the time ordering,
so its decoded candle does too. -/
theorem claim_C4_open_lt_close_iff_witness :
    specLiteralCandle.open_time < specLiteralCandle.close_time := by
  refine (claim_C4_open_lt_close_iff specLiteralArray specLiteralCandle
    decode_specLiteralArray).mpr ?_
  simp [specLiteralArray, List.getD, pyInt, Rat.num_ofNat, Rat.den_ofNat, Int.tdiv_one]

/-- Transport-level failure kinds caught by MexcClient._make_request
(httpx.TimeoutException, httpx.ConnectError, httpx.NetworkError). -/
inductive TransportKind where
  | timeoutExc
  | connectError
  | networkError
deriving DecidableEq

/-- Outcome of one HTTP attempt, as _make_request observes it.  In the
resp case, status is the HTTP status code, errCode the structured code
field when the body parses as a JSON object carrying one (none models
both a non-JSON body and a body without a code, in which case the code
falls back to the HTTP status per response.json()/except ValueError),
errMsg the msg field or raw text, and body the decoded success payload
(the content-type branching on success only selects how the payload is
decoded and is folded into body). -/
inductive HttpResult (α : Type) where
  | transportError (kind : TransportKind)
  | resp (status : Nat) (errCode : Option Int) (errMsg : String) (body : α)
deriving DecidableEq

/-- Error taxonomy of the client, mirroring MexcClientError and its two
subclasses.  clientError records the last underlying transport cause and
the retry count interpolated into its message; apiError records the
structured code and message. -/
inductive MexcErr where
  | clientError (lastCause : TransportKind) (retries : Nat)
  | apiError (code : Int) (message : String)
  | rateLimit
deriving DecidableEq

/-- Observable actions of one _make_request call: issuing the HTTP
attempt with the current retry count, and sleeping for a number of
seconds (asyncio.sleep). -/
inductive REvent where
  | attempt (retryCount : Nat)
  | sleep (seconds : Int)
deriving DecidableEq

/-- Embedding of MexcClient._get_rate_limit_delay with the clock made
explicit: if the recorded reset timestamp lies in the future, wait until
one second past it, else fall back to 60 seconds.  With integer-valued
times the int() truncation in the source is the identity. -/
def _get_rate_limit_delay (reset now : Int) : Int :=
  if reset > now then reset - now + 1 else 60

/-- Embedding of MexcClient._is_retryable_error: membership in the fixed
set of 5xx server codes and vendor transient codes. -/
def _is_retryable_error (code : Int) : Bool :=
  code = 500 || code = 502 || code = 503 || code = 504 ||
    code = -1001 || code = -1021

/-- Embedding of MexcClient._make_request.  The call consumes one script
entry per HTTP attempt and follows the source branch for branch:
a transport error sleeps retryDelay * 2 ^ retryCount and recurses while
retryCount < maxRetries, else fails with clientError; a 429 response
(raised as the rate-limit error before any other status check) sleeps
the rate-limit delay at the current clock and recurses while attempts
remain, else re-raises rateLimit; any other status at least 400 raises
apiError with the structured code (falling back to the status) and is
retried with exponential backoff only while attempts remain and the
code is retryable, else propagates immediately; a status below 400
returns the body (response.raise_for_status() cannot fire there, and
_update_rate_limits touches only the advisory remaining-weight counter,
modelled separately on MexcClientState).  The result is none when the
script is too short to cover the attempts made, and otherwise the
Except outcome of the call paired with its trace of attempts and
sleeps. -/
def _make_request {α : Type} (maxRetries : Nat) (retryDelay reset : Int)
    (clock : Nat → Int) (script : List (HttpResult α)) (retryCount : Nat) :
    Option (Except MexcErr α × List REvent) :=
  match script with
  | [] => none
  | r :: rest =>
    match r with
    | .transportError kind =>
      if retryCount < maxRetries then
        match _make_request maxRetries retryDelay reset clock rest (retryCount + 1) with
        | none => none
        | some (res, evs) =>
          some (res, .attempt retryCount :: .sleep (retryDelay * 2 ^ retryCount) :: evs)
      else
        some (.error (.clientError kind maxRetries), [.attempt retryCount])
    | .resp status errCode errMsg body =>
      if status = 429 then
        if retryCount < maxRetries then
          match _make_request maxRetries retryDelay reset clock rest (retryCount + 1) with
          | none => none
          | some (res, evs) =>
            some (res, .attempt retryCount ::
              .sleep (_get_rate_limit_delay reset (clock retryCount)) :: evs)
        else
          some (.error .rateLimit, [.attempt retryCount])
      else if 400 ≤ status then
        if retryCount < maxRetries then
          if _is_retryable_error (errCode.getD status) then
            match _make_request maxRetries retryDelay reset clock rest (retryCount + 1) with
            | none => none
            | some (res, evs) =>
              some (res, .attempt retryCount :: .sleep (retryDelay * 2 ^ retryCount) :: evs)
          else
            some (.error (.apiError (errCode.getD status) errMsg), [.attempt retryCount])
        else
          some (.error (.apiError (errCode.getD status) errMsg), [.attempt retryCount])
      else
        some (.ok body, [.attempt retryCount])

/-- Rate-limit bookkeeping state of MexcClient: the advisory
remaining-weight counter and the reset timestamp. -/
structure MexcClientState where
  _rate_limit_remaining : Int
  _rate_limit_reset : Int
deriving DecidableEq

/-- Field values set by MexcClient.__init__. -/
def initClientState : MexcClientState :=
  { _rate_limit_remaining := 1200, _rate_limit_reset := 0 }

/-- Embedding of MexcClient._update_rate_limits: when the response
carries an x-mbx-used-weight-1m header (modelled as some w), the
remaining counter becomes max 0 (1200 - w); nothing else is written.
This is the only mutation of rate-limit state in the source. -/
def _update_rate_limits (s : MexcClientState) (usedWeightHeader : Option Int) :
    MexcClientState :=
  match usedWeightHeader with
  | some w => { s with _rate_limit_remaining := max 0 (1200 - w) }
  | none => s

/-- Claim C1: with max_retries = 3, three consecutive transport failures
followed by a success yield exactly 3 retried attempts (attempts at
retry counts 0 through 3, so 3 retries after the initial attempt) and
the successful result, the retry after the failure at attempt index k
being preceded by a sleep of retry_delay * 2 ^ k seconds, for k = 0, 1,
2 as in the source's zero-based attempt counter; four consecutive
transport failures yield the transport-exhausted client error recording
the last underlying cause, with no further attempts regardless of what
the transport would have produced next (the trailing script rest is
never consumed). -/
theorem claim_C1_transport_retry (d reset : Int) (clock : Nat → Int)
    (k0 k1 k2 k3 : TransportKind) (em : String) (b : Nat)
    (rest : List (HttpResult Nat)) :
    _make_request 3 d reset clock
        [.transportError k0, .transportError k1, .transportError k2,
         .resp 200 none em b] 0
      = some (.ok b,
          [.attempt 0, .sleep (d * 2 ^ 0), .attempt 1, .sleep (d * 2 ^ 1),
           .attempt 2, .sleep (d * 2 ^ 2), .attempt 3]) ∧
    _make_request 3 d reset clock
        ([.transportError k0, .transportError k1, .transportError k2,
          .transportError k3] ++ rest) 0
      = some (.error (.clientError k3 3),
          [.attempt 0, .sleep (d * 2 ^ 0), .attempt 1, .sleep (d * 2 ^ 1),
           .attempt 2, .sleep (d * 2 ^ 2), .attempt 3]) :=
  ⟨rfl, rfl⟩

/-- Claim C6: for a response with status at least 400 and other than 429
carrying a structured code, the request is retried with exponential
backoff exactly when the code is retryable and attempts remain; a
non-retryable code, or an exhausted budget, propagates immediately as a
structured API error consuming no further attempts; and the retryable
set is exactly the 5xx server codes 500, 502, 503, 504 and the vendor
transient codes -1001 and -1021. -/
theorem claim_C6_api_error_retry :
    ∀ (m : Nat) (d reset : Int) (clock : Nat → Int) (status : Nat)
      (c : Int) (em : String) (b : Nat) (rest : List (HttpResult Nat)) (k : Nat),
    400 ≤ status → status ≠ 429 →
    (_is_retryable_error c = false →
      _make_request m d reset clock (.resp status (some c) em b :: rest) k
        = some (.error (.apiError c em), [.attempt k])) ∧
    (_is_retryable_error c = true → k < m →
      _make_request m d reset clock (.resp status (some c) em b :: rest) k
        = (match _make_request m d reset clock rest (k + 1) with
           | none => none
           | some (res, evs) =>
             some (res, .attempt k :: .sleep (d * 2 ^ k) :: evs))) ∧
    (_is_retryable_error c = true → ¬ k < m →
      _make_request m d reset clock (.resp status (some c) em b :: rest) k
        = some (.error (.apiError c em), [.attempt k])) ∧
    (_is_retryable_error c = true ↔
      (c = 500 ∨ c = 502 ∨ c = 503 ∨ c = 504 ∨ c = -1001 ∨ c = -1021)) := by
  intro m d reset clock status c em b rest k h400 h429
  refine ⟨?_, ?_, ?_, ?_⟩
  · intro hnr
    simp [_make_request, h429, h400, hnr]
  · intro hr hkm
    cases hc : _make_request m d reset clock rest (k + 1) with
    | none => simp [_make_request, h429, h400, hr, hkm, hc]
    | some p =>
      cases p with
      | mk res evs => simp [_make_request, h429, h400, hr, hkm, hc]
  · intro hr hkm
    simp [_make_request, h429, h400, hr, hkm]
  · simp [_is_retryable_error, or_assoc]

/-- Claim C6 witness: a 400 response with the non-retryable code 123 is
propagated immediately as the structured API error after a single
attempt. -/
theorem claim_C6_api_error_retry_witness :
    _make_request 3 1 0 (fun _ => 0) [.resp 400 (some 123) "m" (0 : Nat)] 0
      = some (.error (.apiError 123 "m"), [.attempt 0]) :=
  (claim_C6_api_error_retry 3 1 0 (fun _ => 0) 400 123 "m" 0 [] 0
    (by norm_num) (by norm_num)).1 (by decide)

/-- Claim C7, counterexample to the claim as stated: with max_retries = 3,
a script of exactly max_retries = 3 consecutive 429 responses followed
by a success produces the successful result after three waits, not the
rate-limit-exhausted error the claim requires for max_retries
consecutive 429 responses (exhaustion needs max_retries + 1 of them). -/
theorem claim_C7_counterexample :
    _make_request 3 1 0 (fun _ => 0)
        [.resp 429 none "r" (0 : Nat), .resp 429 none "r" 0,
         .resp 429 none "r" 0, .resp 200 none "k" 7] 0
      = some (.ok 7,
          [.attempt 0, .sleep 60, .attempt 1, .sleep 60, .attempt 2,
           .sleep 60, .attempt 3]) :=
  rfl

/-- Claim C7 as amended: on a 429 response the client waits the
rate-limit delay (one second past the recorded reset timestamp when
that is in the future, else the fixed 60 second fallback) and retries,
consuming the same retry counter as transport failures; a single 429
followed by a success yields one wait then the successful result, and
max_retries + 1 (not max_retries) consecutive 429 responses yield the
rate-limit-exhausted error with no further attempts. -/
theorem claim_C7_rate_limit :
    ∀ (m : Nat) (d reset : Int) (clock : Nat → Int) (em em2 : String)
      (b b2 : Nat) (rest : List (HttpResult Nat)) (now : Int),
    (reset > now → _get_rate_limit_delay reset now = reset - now + 1) ∧
    (¬ reset > now → _get_rate_limit_delay reset now = 60) ∧
    (0 < m →
      _make_request m d reset clock
          (.resp 429 none em b :: .resp 200 none em2 b2 :: rest) 0
        = some (.ok b2,
            [.attempt 0, .sleep (_get_rate_limit_delay reset (clock 0)),
             .attempt 1])) ∧
    (_make_request 3 d reset clock
        ([.resp 429 none em b, .resp 429 none em b, .resp 429 none em b,
          .resp 429 none em b] ++ rest) 0
      = some (.error .rateLimit,
          [.attempt 0, .sleep (_get_rate_limit_delay reset (clock 0)),
           .attempt 1, .sleep (_get_rate_limit_delay reset (clock 1)),
           .attempt 2, .sleep (_get_rate_limit_delay reset (clock 2)),
           .attempt 3])) := by
  intro m d reset clock em em2 b b2 rest now
  refine ⟨?_, ?_, ?_, rfl⟩
  · intro h
    simp [_get_rate_limit_delay, h]
  · intro h
    simp [_get_rate_limit_delay, h]
  · intro hm
    simp [_make_request, hm]

/-- Claim C7 witness: with the recorded reset at 10 and the clock at 0,
one 429 then a success yields one wait of 11 seconds then the result,
and at clock 4 the computed delay is 10 - 4 + 1 = 7. -/
theorem claim_C7_rate_limit_witness :
    _make_request 3 1 10 (fun _ => 0)
        [.resp 429 none "r" (0 : Nat), .resp 200 none "k" 7] 0
      = some (.ok 7, [.attempt 0, .sleep 11, .attempt 1]) ∧
    _get_rate_limit_delay 10 4 = 7 := by
  have h := claim_C7_rate_limit 3 1 10 (fun _ => 0) "r" "k" 0 7 [] 4
  constructor
  · have h3 := h.2.2.1 (by norm_num)
    have hd : _get_rate_limit_delay 10 0 = 11 := by norm_num [_get_rate_limit_delay]
    rw [hd] at h3
    exact h3
  · have h1 := h.1 (by norm_num)
    rw [h1]
    norm_num

/-- Helper: the fold of _update_rate_limits over any sequence of response
headers never changes the reset timestamp. -/
theorem update_rate_limits_reset (s : MexcClientState) (hs : List (Option Int)) :
    (hs.foldl _update_rate_limits s)._rate_limit_reset = s._rate_limit_reset := by
  induction hs generalizing s with
  | nil => rfl
  | cons hd tl ih => cases hd <;> simp [_update_rate_limits, ih]

/-- Claim C10: the reset timestamp is 0 at construction and remains 0
after any sequence of header-driven rate-limit updates (the only
operation that writes rate-limit state, and it touches only the
remaining-weight counter), so at every positive clock time the
rate-limit wait computation returns the fixed 60 second fallback and
the wait-until-recorded-reset branch is unreachable. -/
theorem claim_C10_reset_never_written :
    ∀ (hs : List (Option Int)) (now : Int),
    initClientState._rate_limit_reset = 0 ∧
    (hs.foldl _update_rate_limits initClientState)._rate_limit_reset = 0 ∧
    (0 < now →
      _get_rate_limit_delay
        (hs.foldl _update_rate_limits initClientState)._rate_limit_reset now = 60) := by
  intro hs now
  refine ⟨rfl, (update_rate_limits_reset _ _).trans rfl, ?_⟩
  intro hnow
  rw [update_rate_limits_reset]
  show _get_rate_limit_delay 0 now = 60
  simp only [_get_rate_limit_delay]
  rw [if_neg (by omega)]

/-- Claim C10 witness: after updates from headers reporting used weights
100 and 5, the reset timestamp is still 0 and the delay at clock time 5
is 60. -/
theorem claim_C10_reset_never_written_witness :
    ([some 100, none, some 5].foldl _update_rate_limits initClientState)._rate_limit_reset
        = 0 ∧
    _get_rate_limit_delay 0 5 = 60 := by
  have h := claim_C10_reset_never_written [some 100, none, some 5] 5
  refine ⟨h.2.1, ?_⟩
  have h60 := h.2.2 (by norm_num)
  rwa [h.2.1] at h60

/-- Poller state: the _running flag, whether the _task handle is set,
and the high-water mark _last_close_time (None until first new data). -/
structure PollerState where
  _running : Bool
  _task : Bool
  _last_close_time : Option Int
deriving DecidableEq

/-- Observable events of the poller: the already-running warning, the
spawn of the background loop, the cancellation signal and the join on
the loop task inside stop(), the write of the high-water mark, the
invocation of the consumer callback with a batch, the logging of a
callback error or of a fetch error, and the inter-cycle sleep. -/
inductive PEvent where
  | warnAlreadyRunning
  | spawnLoop
  | cancelTask
  | joinedLoop
  | markSet (t : Int)
  | callbackInvoked (batch : List KlineData)
  | callbackErrorLogged
  | fetchErrorLogged
  | sleepCycle (seconds : Int)
deriving DecidableEq

/-- Outcome of the awaited get_klines call in one loop iteration:
a CancelledError surfacing from the await, any other exception, or a
returned batch. -/
inductive FetchOutcome where
  | cancelled
  | raised
  | fetched (klines : List KlineData)
deriving DecidableEq

/-- Input of one loop iteration: the fetch outcome, whether the consumer
callback raises an Exception when invoked, and whether a cancellation
is delivered during the inter-cycle sleep. -/
structure CycleInput where
  fetch : FetchOutcome
  callbackRaises : Bool
  cancelDuringSleep : Bool
deriving DecidableEq

/-- New-data test of the loop: the high-water mark is unset or the
latest close time is strictly greater than it. -/
def isNewData (mark : Option Int) (latest : Int) : Bool :=
  match mark with
  | none => true
  | some m => decide (m < latest)

/-- Embedding of one iteration of KlinePoller._poll_loop, returning the
new high-water mark, the trace of events of the iteration, and whether
the loop proceeds to another iteration.  A cancellation surfacing from
the fetch breaks the loop before any callback or sleep; any other fetch
exception is caught, logged, and followed by the inter-cycle sleep; on
a non-empty batch whose last close time passes isNewData, the mark is
written first (markSet precedes callbackInvoked in the trace, matching
the statement order in the source), then the callback, if set, is
invoked with the entire batch and any exception it raises is caught and
logged; the iteration always ends with the inter-cycle sleep, and a
cancellation delivered during that sleep ends the loop. -/
def _poll_cycle (pollInterval : Int) (hasCallback : Bool) (mark : Option Int)
    (inp : CycleInput) : Option Int × List PEvent × Bool :=
  match inp.fetch with
  | .cancelled => (mark, [], false)
  | .raised =>
    (mark, [.fetchErrorLogged, .sleepCycle pollInterval], !inp.cancelDuringSleep)
  | .fetched klines =>
    match klines.getLast? with
    | none => (mark, [.sleepCycle pollInterval], !inp.cancelDuringSleep)
    | some lastK =>
      if isNewData mark lastK.close_time then
        let cbEvents : List PEvent :=
          if hasCallback then
            if inp.callbackRaises then
              [.callbackInvoked klines, .callbackErrorLogged]
            else
              [.callbackInvoked klines]
          else []
        (some lastK.close_time,
          .markSet lastK.close_time :: cbEvents ++ [.sleepCycle pollInterval],
          !inp.cancelDuringSleep)
      else
        (mark, [.sleepCycle pollInterval], !inp.cancelDuringSleep)

/-- Embedding of KlinePoller._poll_loop over a script of cycle inputs:
the while condition reads the running flag (false means the loop body
never runs), and each iteration either continues with the updated mark
or ends the loop. -/
def _poll_loop (pollInterval : Int) (hasCallback : Bool) (running : Bool)
    (mark : Option Int) (inputs : List CycleInput) : Option Int × List PEvent :=
  if running then
    match inputs with
    | [] => (mark, [])
    | inp :: rest =>
      match _poll_cycle pollInterval hasCallback mark inp with
      | (m1, evs, cont) =>
        if cont then
          match _poll_loop pollInterval hasCallback running m1 rest with
          | (m2, evs2) => (m2, evs ++ evs2)
        else (m1, evs)
  else (mark, [])

/-- Counts the callback invocations in a trace. -/
def callbackCount (evs : List PEvent) : Nat :=
  evs.countP (fun e =>
    match e with
    | .callbackInvoked _ => true
    | _ => false)

/-- Embedding of KlinePoller.start: a warning and no state change when
already running, else set the running flag and spawn the loop task. -/
def KlinePoller.start (s : PollerState) : PollerState × List PEvent :=
  if s._running then (s, [.warnAlreadyRunning])
  else ({ s with _running := true, _task := true }, [.spawnLoop])

/-- Embedding of KlinePoller.stop: a no-op when not running, else clear
the running flag and, when the task handle is set, cancel it, await its
termination, and clear the handle. -/
def KlinePoller.stop (s : PollerState) : PollerState × List PEvent :=
  if s._running then
    if s._task then
      ({ s with _running := false, _task := false }, [.cancelTask, .joinedLoop])
    else ({ s with _running := false }, [])
  else (s, [])

/-- Claim C2: in a cycle whose fetch succeeds with a non-empty batch and
whose callback does not raise, the callback is invoked exactly once
with the entire batch exactly when the high-water mark is unset or the
last close time strictly exceeds it, and not at all otherwise; starting
from an unset mark, two successive fetches with equal last close times
produce exactly one invocation, from the first fetch, and a second
fetch with strictly greater last close time produces exactly one
further invocation carrying the full second batch. -/
theorem claim_C2_dedup_and_delivery :
    ∀ (p : Int) (mark : Option Int) (b1 b2 : List KlineData) (l1 l2 : KlineData),
    b1.getLast? = some l1 → b2.getLast? = some l2 →
    (callbackCount (_poll_cycle p true mark ⟨.fetched b1, false, false⟩).2.1
        = if isNewData mark l1.close_time then 1 else 0) ∧
    (isNewData mark l1.close_time = true →
      (_poll_cycle p true mark ⟨.fetched b1, false, false⟩).2.1
        = [.markSet l1.close_time, .callbackInvoked b1, .sleepCycle p]) ∧
    (isNewData mark l1.close_time = false →
      (_poll_cycle p true mark ⟨.fetched b1, false, false⟩).2.1
        = [.sleepCycle p]) ∧
    (l2.close_time = l1.close_time →
      (_poll_loop p true true none
          [⟨.fetched b1, false, false⟩, ⟨.fetched b2, false, false⟩]).2
        = [.markSet l1.close_time, .callbackInvoked b1, .sleepCycle p,
           .sleepCycle p]) ∧
    (l1.close_time < l2.close_time →
      (_poll_loop p true true none
          [⟨.fetched b1, false, false⟩, ⟨.fetched b2, false, false⟩]).2
        = [.markSet l1.close_time, .callbackInvoked b1, .sleepCycle p,
           .markSet l2.close_time, .callbackInvoked b2, .sleepCycle p]) := by
  intro p mark b1 b2 l1 l2 h1 h2
  refine ⟨?_, ?_, ?_, ?_, ?_⟩
  · cases hn : isNewData mark l1.close_time <;>
      simp [_poll_cycle, h1, hn, callbackCount]
  · intro hn
    simp [_poll_cycle, h1, hn]
  · intro hn
    simp [_poll_cycle, h1, hn]
  · intro he
    simp [_poll_loop, _poll_cycle, h1, h2, isNewData, he]
  · intro hlt
    simp [_poll_loop, _poll_cycle, h1, h2, isNewData, hlt]

/-- Claim C2 witness: from an unset mark, fetching a batch with close
time 3 and then one with close time 1609462800000 produces exactly the
two deliveries, the second carrying the full second batch. -/
theorem claim_C2_dedup_and_delivery_witness :
    (_poll_loop 60 true true none
        [⟨.fetched [reversedTimesCandle], false, false⟩,
         ⟨.fetched [specLiteralCandle], false, false⟩]).2
      = [.markSet reversedTimesCandle.close_time,
         .callbackInvoked [reversedTimesCandle], .sleepCycle 60,
         .markSet specLiteralCandle.close_time,
         .callbackInvoked [specLiteralCandle], .sleepCycle 60] :=
  (claim_C2_dedup_and_delivery 60 none [reversedTimesCandle] [specLiteralCandle]
    reversedTimesCandle specLiteralCandle rfl rfl).2.2.2.2 (by decide)

/-- Claim C5: a fetch error is caught inside the loop, logged, and
followed by the standard inter-cycle sleep with the loop continuing;
an exception raised by the consumer callback is likewise caught and
logged, and the loop continues after the standard sleep; neither ends
polling. -/
theorem claim_C5_errors_never_escape :
    ∀ (p : Int) (hasCb : Bool) (mark : Option Int) (cr : Bool)
      (b : List KlineData) (l : KlineData),
    (_poll_cycle p hasCb mark ⟨.raised, cr, false⟩
        = (mark, [.fetchErrorLogged, .sleepCycle p], true)) ∧
    (b.getLast? = some l → isNewData mark l.close_time = true →
      _poll_cycle p true mark ⟨.fetched b, true, false⟩
        = (some l.close_time,
           [.markSet l.close_time, .callbackInvoked b, .callbackErrorLogged,
            .sleepCycle p], true)) := by
  intro p hasCb mark cr b l
  refine ⟨by simp [_poll_cycle], ?_⟩
  intro hb hn
  simp [_poll_cycle, hb, hn]

/-- Claim C5 witness: with an unset mark, a raising callback on a
concrete one-candle batch is logged and the loop continues. -/
theorem claim_C5_errors_never_escape_witness :
    _poll_cycle 60 true none ⟨.fetched [specLiteralCandle], true, false⟩
      = (some specLiteralCandle.close_time,
         [.markSet specLiteralCandle.close_time,
          .callbackInvoked [specLiteralCandle], .callbackErrorLogged,
          .sleepCycle 60], true) :=
  (claim_C5_errors_never_escape 60 true none false [specLiteralCandle]
    specLiteralCandle).2 rfl rfl

/-- Claim C8: start() on a running poller is a no-op with a logged
warning and otherwise spawns the loop and sets the running flag;
stop() on an idle poller is a no-op and otherwise clears the running
flag, signals cancellation, and joins the loop task, its trace holding
no callback invocation; a cancellation observed at the fetch ends the
loop without callback or sleep; and with the running flag cleared the
loop performs nothing at all, so no callback fires after stop()
returns. -/
theorem claim_C8_lifecycle :
    ∀ (s : PollerState) (p : Int) (hasCb : Bool) (mark : Option Int)
      (inputs : List CycleInput) (cr cds : Bool),
    (s._running = true → KlinePoller.start s = (s, [.warnAlreadyRunning])) ∧
    (s._running = false →
      KlinePoller.start s
        = ({ s with _running := true, _task := true }, [.spawnLoop])) ∧
    (s._running = false → KlinePoller.stop s = (s, [])) ∧
    (s._running = true → s._task = true →
      KlinePoller.stop s
          = ({ s with _running := false, _task := false },
             [.cancelTask, .joinedLoop]) ∧
      ((KlinePoller.stop s).1)._running = false ∧
      callbackCount (KlinePoller.stop s).2 = 0) ∧
    (_poll_cycle p hasCb mark ⟨.cancelled, cr, cds⟩ = (mark, [], false)) ∧
    (_poll_loop p hasCb false mark inputs = (mark, [])) := by
  intro s p hasCb mark inputs cr cds
  refine ⟨?_, ?_, ?_, ?_, by simp [_poll_cycle],
    by cases inputs <;> simp [_poll_loop]⟩
  · intro h
    simp [KlinePoller.start, h]
  · intro h
    simp [KlinePoller.start, h]
  · intro h
    simp [KlinePoller.stop, h]
  · intro h ht
    refine ⟨by simp [KlinePoller.stop, h, ht], ?_, ?_⟩ <;>
      simp [KlinePoller.stop, h, ht, callbackCount]

/-- Claim C8 witness: stopping a running poller with a live task yields
the idle state with the cancel-and-join trace and no callback event. -/
theorem claim_C8_lifecycle_witness :
    KlinePoller.stop ⟨true, true, none⟩
        = (⟨false, false, none⟩, [.cancelTask, .joinedLoop]) ∧
    callbackCount (KlinePoller.stop ⟨true, true, none⟩).2 = 0 := by
  have h :=
    (claim_C8_lifecycle ⟨true, true, none⟩ 60 true none [] false false).2.2.2.1
      rfl rfl
  exact ⟨h.1, h.2.2⟩

/-- Claim C9: in a cycle that detects new data, the high-water mark is
written before the callback is invoked (markSet precedes
callbackInvoked in the trace), and it stays advanced when the callback
raises, so a later cycle fetching the same batch invokes no callback:
delivery per observed advance is at most once and is not retried after
a failed callback. -/
theorem claim_C9_mark_written_before_callback :
    ∀ (p : Int) (mark : Option Int) (b : List KlineData) (l : KlineData),
    b.getLast? = some l → isNewData mark l.close_time = true →
    (_poll_cycle p true mark ⟨.fetched b, true, false⟩
        = (some l.close_time,
           [.markSet l.close_time, .callbackInvoked b, .callbackErrorLogged,
            .sleepCycle p], true)) ∧
    (callbackCount (_poll_loop p true true mark
        [⟨.fetched b, true, false⟩, ⟨.fetched b, false, false⟩]).2 = 1) ∧
    ((_poll_cycle p true (some l.close_time) ⟨.fetched b, false, false⟩).2.1
        = [.sleepCycle p]) := by
  intro p mark b l hb hn
  have hsame : isNewData (some l.close_time) l.close_time = false := by
    simp [isNewData]
  refine ⟨by simp [_poll_cycle, hb, hn], ?_, ?_⟩
  · simp [_poll_loop, _poll_cycle, hb, hn, hsame, callbackCount]
  · simp [_poll_cycle, hb, hsame]

/-- Claim C9 witness: a raising callback on a concrete batch followed by
a refetch of the same batch yields exactly one invocation overall. -/
theorem claim_C9_mark_written_before_callback_witness :
    callbackCount (_poll_loop 60 true true none
        [⟨.fetched [specLiteralCandle], true, false⟩,
         ⟨.fetched [specLiteralCandle], false, false⟩]).2 = 1 :=
  (claim_C9_mark_written_before_callback 60 none [specLiteralCandle]
    specLiteralCandle rfl rfl).2.1
